import Mathlib

/-!
Verification development for the `substrate-subxt` srml client layer.

The repository's `src/srml/balances.rs` and `src/srml/system.rs` are embedded
shallowly below.  The crate-internal collaborators they use (`crate::metadata`,
`crate::codec`, the `XtBuilder` / `Client` types of `lib.rs`) are not part of
the sources; where a definition models such a missing collaborator its doc
comment starts with `Modelled from the spec:` and names what is missing.

Concrete runtime types are instantiated at `Nat`: `AccountId = Nat`,
`Balance = Nat`, `Index = Nat`.  Byte buffers are `List Nat`.
-/

/-- Opaque byte buffers (`Encoded` in the source) are lists of byte values. -/
abbrev Bytes := List Nat

/-- Modelled from the spec: `crate::metadata::MetadataError` (metadata.rs is not
under src/).  Per spec §7 the taxonomy distinguishes module-not-found,
storage-item-not-found and call-not-found; `storageMapError` models the
additional fallible `get_map()?` step visible in both source files. -/
inductive MetadataError where
  | moduleNotFound (name : String)
  | storageNotFound (name : String)
  | callNotFound (name : String)
  | storageMapError (name : String)
deriving DecidableEq, Repr

/-- Modelled from the spec: `crate::error::Error` (error.rs is not under src/):
the error type of the returned futures, wrapping metadata errors (via `From`,
used by the `?` conversions in the sources) and transport-side failures. -/
inductive Error where
  | metadata (e : MetadataError)
  | transport (msg : String)
deriving DecidableEq, Repr

/-- Case-sensitive exact-match association-list lookup used by the metadata
document (spec §3: "lookups are case-sensitive exact string matches"). -/
def lookupName {α : Type} : List (String × α) → String → Option α
  | [], _ => none
  | (k, v) :: rest, n => if k = n then some v else lookupName rest n

/-- Fixed-width little-endian encoding of a `Nat` into `w` bytes. -/
def toLE : Nat → Nat → Bytes
  | 0, _ => []
  | w + 1, n => n % 256 :: toLE w (n / 256)

/-- Fixed-width 4-byte little-endian encoding (the non-compact SCALE encoding
used for plain numeric values such as map keys in this model). -/
def encodeFixed32 (n : Nat) : Bytes := toLE 4 n

/-- Fixed-width 4-byte little-endian decoding; `none` on any other length. -/
def decodeFixed32 : Bytes → Option Nat
  | [a, b, c, d] => some (a + 256 * b + 256 ^ 2 * c + 256 ^ 3 * d)
  | _ => none

/-- Minimal little-endian byte string of a `Nat`, written with an explicit
fuel argument (the value itself bounds the recursion depth). -/
def natLEBytes : Nat → Nat → Bytes
  | 0, _ => []
  | fuel + 1, n => if n = 0 then [] else n % 256 :: natLEBytes fuel (n / 256)

/-- Modelled from the spec: `crate::codec::compact` (codec.rs is not under
src/).  SCALE compact encoding, the "variable-length encoding that represents
small values in fewer bytes (prefix-tagged length classes)" of spec §4.3:
one byte below `2^6`, two bytes below `2^14`, four bytes below `2^30`, and a
length-prefixed big-integer mode above. -/
def compactEncode (n : Nat) : Bytes :=
  if n < 64 then [n * 4]
  else if n < 16384 then toLE 2 (n * 4 + 1)
  else if n < 1073741824 then toLE 4 (n * 4 + 2)
  else
    let payload := natLEBytes n n
    ((payload.length - 4) * 4 + 3) :: payload

/-- Modelled from the spec: SCALE encoding of a byte vector (`Vec<u8>` call
arguments such as the code blob of `set_code`): compact length prefix followed
by the raw bytes. -/
def encodeVec (b : Bytes) : Bytes := compactEncode b.length ++ b

/-- Byte rendering of a name string, used when building storage-key material. -/
def strBytes (s : String) : Bytes := s.toList.map Char.toNat

/-- Modelled from the spec: the storage-key hash (spec §4.2 allows "any
collision-resistant, deterministic" hash as long as it is fixed); modelled as
the identity on the key material, which is deterministic and injective. -/
def hashBytes (b : Bytes) : Bytes := b

/-- Modelled from the spec: the per-item storage metadata held by a Module
Descriptor — whether the item is a map, and its declared default encoded
value (spec §3, Storage Descriptor). -/
structure StorageItemMd where
  isMap : Bool
  defaultBytes : Bytes
deriving DecidableEq, Repr

/-- Modelled from the spec: a Module Descriptor (spec §3) — the module's name
and dispatch index, its storage items, and its calls (call name to call
index). -/
structure ModuleMetadata where
  name : String
  index : Nat
  storageItems : List (String × StorageItemMd)
  calls : List (String × Nat)
deriving DecidableEq, Repr

/-- Modelled from the spec: the Metadata Document (spec §3) — a read-only
mapping from module name to Module Descriptor. -/
structure Metadata where
  modules : List (String × ModuleMetadata)
deriving DecidableEq, Repr

/-- Modelled from the spec: the resolved storage-item handle returned by
`module.storage(name)?` in the sources, retaining the module and item names
needed to build the key prefix. -/
structure StorageMetadataH where
  moduleName : String
  itemName : String
  item : StorageItemMd
deriving DecidableEq, Repr

/-- Modelled from the spec: the Storage Map Accessor (spec §4.2) returned by
`get_map()?` — key-prefix material and the decoded declared default value. -/
structure StorageMapAcc where
  prefixBytes : Bytes
  defaultVal : Nat
deriving DecidableEq, Repr

/-- Modelled from the spec: `Metadata::module(name)` of the Metadata Resolver
(spec §4.1): exact-name lookup, `ModuleNotFound` on absence. -/
def Metadata.module (md : Metadata) (name : String) : Except MetadataError ModuleMetadata :=
  match lookupName md.modules name with
  | some m => .ok m
  | none => .error (.moduleNotFound name)

/-- Modelled from the spec: `ModuleMetadata::storage(name)` of the Metadata
Resolver (spec §4.1): exact-name lookup, `StorageNotFound` on absence. -/
def ModuleMetadata.storage (m : ModuleMetadata) (itemName : String) :
    Except MetadataError StorageMetadataH :=
  match lookupName m.storageItems itemName with
  | some it => .ok ⟨m.name, itemName, it⟩
  | none => .error (.storageNotFound itemName)

/-- Modelled from the spec: `get_map()` on a resolved storage item — builds the
Storage Map Accessor (spec §4.2) whose key prefix is the module and item names
and whose default is the decoded declared default (falling back to the zero
value when the declared bytes do not decode, mirroring `unwrap_or_default`).
Fails when the item is not a map, mirroring the `get_map()?` in the sources. -/
def StorageMetadataH.get_map (h : StorageMetadataH) : Except MetadataError StorageMapAcc :=
  if h.item.isMap then
    .ok ⟨strBytes h.moduleName ++ strBytes h.itemName,
         (decodeFixed32 h.item.defaultBytes).getD 0⟩
  else .error (.storageMapError h.itemName)

/-- Modelled from the spec: the Encoded Key of a map entry (spec §4.2):
`hash(module_name || item_name || encode(map_key))`. -/
def StorageMapAcc.key (m : StorageMapAcc) (k : Nat) : Bytes :=
  hashBytes (m.prefixBytes ++ encodeFixed32 k)

/-- Modelled from the spec: `ModuleMetadata::call(name, args)` of the Call
Encoder (spec §4.3): resolve the call index by name, then emit
`encode(module_index) || encode(call_index) || encode(args)`;
`CallNotFound` when the name is absent. -/
def ModuleMetadata.call (m : ModuleMetadata) (callName : String) (args : Bytes) :
    Except MetadataError Bytes :=
  match lookupName m.calls callName with
  | some ci => .ok (m.index :: ci :: args)
  | none => .error (.callNotFound callName)

/-- Resolution chain shared by the read operations: module, then storage item,
then typed map view — the body of the local `free_balance_map` /
`account_nonce_map` closures in the sources. -/
def Metadata.storageMap (md : Metadata) (modName itemName : String) :
    Except MetadataError StorageMapAcc := do
  let m ← md.module modName
  let s ← m.storage itemName
  s.get_map

/-- Shape of the future returned by the read operations: either an already
failed future (`future::err(err)` at balances.rs:76 / system.rs:131) or the
fetch-or-default request handed to the Client Facade
(`self.fetch_or(map.key(account_id), map.default())` at balances.rs:78 /
system.rs:133). -/
inductive FutureSpec (α : Type) where
  | err (e : Error)
  | fetchOr (key : Bytes) (defaultValue : α)
deriving DecidableEq, Repr

/-- Modelled from the spec: resolving a read future against a transport
collaborator (spec §4.6): an absent key folds into the declared default; a
present value is decoded; a value that fails to decode is a genuine error. -/
def FutureSpec.run (t : Bytes → Option Bytes) : FutureSpec Nat → Except Error Nat
  | .err e => .error e
  | .fetchOr k d =>
    match t k with
    | none => .ok d
    | some bytes =>
      match decodeFixed32 bytes with
      | some v => .ok v
      | none => .error (.transport "decode failure")

/-- Modelled from the spec: the Client (lib.rs is not under src/).  Only the
metadata component is needed by the embedded read operations; the transport
collaborator is supplied when a returned `FutureSpec` is run. -/
structure Client where
  metadata : Metadata
deriving DecidableEq, Repr

/-- Modelled from the spec: the fetch-or-default facade `Client::fetch_or`
(spec §4.6) — records the encoded key and default in the returned future;
its resolution semantics are `FutureSpec.run`. -/
def Client.fetch_or (_c : Client) (key : Bytes) (defaultValue : Nat) : FutureSpec Nat :=
  .fetchOr key defaultValue

/-- Embedding of `BalancesStore::free_balance` for `Client` (balances.rs
lines 60-79): resolve module "Balances", storage item "FreeBalance", typed map
view (the local `free_balance_map` closure, here `Metadata.storageMap`); on
error return an already-failed future, otherwise delegate to `fetch_or` with
the account's map key and the map's default. -/
def Client.free_balance (c : Client) (account_id : Nat) : FutureSpec Nat :=
  match c.metadata.storageMap "Balances" "FreeBalance" with
  | .error err => .err (.metadata err)
  | .ok map => c.fetch_or (map.key account_id) map.defaultVal

/-- Embedding of `SystemStore::account_nonce` for `Client` (system.rs lines
117-134): resolve module "System", storage item "AccountNonce", map view (the
local `account_nonce_map` closure); on error return an already-failed future,
otherwise delegate to `fetch_or` with the account's map key and the map's
default. -/
def Client.account_nonce (c : Client) (account_id : Nat) : FutureSpec Nat :=
  match c.metadata.storageMap "System" "AccountNonce" with
  | .error err => .err (.metadata err)
  | .ok map => c.fetch_or (map.key account_id) map.defaultVal

/-- State-threading form of `free_balance`: the Rust method borrows the client
(`&self`, balances.rs:61), so the explicit-state embedding also returns the
receiver the caller is left with. -/
def Client.free_balanceS (c : Client) (account_id : Nat) : FutureSpec Nat × Client :=
  (c.free_balance account_id, c)

/-- State-threading form of `account_nonce` (`&self`, system.rs:118). -/
def Client.account_nonceS (c : Client) (account_id : Nat) : FutureSpec Nat × Client :=
  (c.account_nonce account_id, c)

/-- Modelled from the spec: the extrinsic builder in its initial, Unvalidated
state (lib.rs is not under src/; spec §4.5: states Unvalidated (initial) and
Valid; §3: in the Unvalidated state the call slot may be empty or absent).
`system.rs` implements `SystemCalls` for the default-state `XtBuilder<T, P>`,
i.e. for this type.  Only the metadata component is needed here; signer and
transport are excluded collaborators. -/
structure XtBuilderU where
  metadata : Metadata
deriving DecidableEq, Repr

/-- Modelled from the spec: the extrinsic builder in the Valid state
(`XtBuilder<T, P, Valid>`, imported by balances.rs from the crate root):
exactly one encoded call is present, as a mandatory component. -/
structure XtBuilderV where
  metadata : Metadata
  call : Bytes
deriving DecidableEq, Repr

/-- Modelled from the spec: `XtBuilder::set_call` (lib.rs is not under src/),
the Unvalidated → Valid transition used at balances.rs:110: a new builder
value carrying the encoded call. -/
def XtBuilderU.set_call (b : XtBuilderU) (call : Bytes) : XtBuilderV :=
  ⟨b.metadata, call⟩

/-- Modelled from the spec: the per-module call helper `ModuleCalls<T, P>`
(`crate::srml::ModuleCalls`, mod.rs is not under src/): a handle bound to a
resolved module descriptor. -/
structure ModuleCalls where
  module : ModuleMetadata
deriving DecidableEq, Repr

/-- Modelled from the spec: `ModuleCalls::new(module)` as used at
balances.rs:109. -/
def ModuleCalls.new (m : ModuleMetadata) : ModuleCalls := ⟨m⟩

/-- Embedding of `ModuleCalls::transfer` (balances.rs lines 126-133): encode
the call "transfer" with arguments `(to, compact(amount))` — the destination
with the plain fixed-width encoding, the amount wrapped in the compact
encoding. -/
def ModuleCalls.transfer (mc : ModuleCalls) (dest amount : Nat) :
    Except MetadataError Bytes :=
  mc.module.call "transfer" (encodeFixed32 dest ++ compactEncode amount)

/-- Embedding of `BalancesXt::balances` for `XtBuilder` (balances.rs lines
104-111): resolve module "Balances" (`?`), hand a `ModuleCalls` helper bound
to it to the caller-supplied closure (`?`), and wrap the resulting encoded
call into a Valid-state builder via `set_call`. -/
def XtBuilderU.balances (b : XtBuilderU)
    (f : ModuleCalls → Except MetadataError Bytes) :
    Except MetadataError XtBuilderV :=
  match b.metadata.module "Balances" with
  | .error e => .error e
  | .ok m =>
    match f (ModuleCalls.new m) with
    | .error e => .error e
    | .ok call => .ok (b.set_call call)

/-- State-threading form of `balances`: the Rust method borrows the builder
(`&self`, balances.rs:104), so the explicit-state embedding also returns the
receiver the caller is left with. -/
def XtBuilderU.balancesS (b : XtBuilderU)
    (f : ModuleCalls → Except MetadataError Bytes) :
    Except MetadataError XtBuilderV × XtBuilderU :=
  (b.balances f, b)

/-- Outcome of a write operation that reaches the submission machinery:
either an already-failed future (`future::err(err)`, system.rs:166) or the
encoded call handed to the signing-and-transport collaborators
(`self.submit(call)`, system.rs:168).  Nonce attachment and signing are
excluded collaborators (spec §1), so the handed bytes are represented by the
encoded call. -/
inductive XtResult where
  | err (e : Error)
  | submit (call : Bytes)
deriving DecidableEq, Repr

/-- Resolution-and-encoding chain of `set_code` — the body of the local
`set_code_call` closure (system.rs:162-163): resolve module "System" and
encode the call "set_code" with the code blob as its argument. -/
def setCodeCall (b : XtBuilderU) (code : Bytes) : Except MetadataError Bytes := do
  let m ← b.metadata.module "System"
  m.call "set_code" (encodeVec code)

/-- Embedding of `SystemCalls::set_code` for `XtBuilder` (system.rs lines
157-169): run the `set_code_call` closure; on error return an already-failed
future, otherwise hand the freshly encoded call to `submit` — construction
and submission in the same method, on the default-state builder. -/
def XtBuilderU.set_code (b : XtBuilderU) (code : Bytes) : XtResult :=
  match setCodeCall b code with
  | .error err => .err (.metadata err)
  | .ok call => .submit call

/-- Modelled from the spec: the staged `submit()` of a Valid-state builder
(spec §4.5, lib.rs is not under src/): hands the carried encoded call to the
signing-and-transport collaborators. -/
def XtBuilderV.submit (b : XtBuilderV) : XtResult :=
  .submit b.call

/-- Bundle of associated semantic types a concrete runtime binds for the
`System` trait (system.rs lines 32-100); only the members the `Balances`
bounds refer to are needed here. -/
structure SystemTypes where
  AccountId : Type
  BlockNumber : Type
  Index : Type

/-- Embedding of the `Balances` trait's associated-type contract (balances.rs
lines 21-31): the bound list
`Parameter + Member + SimpleArithmetic + Codec + Default + Copy +
MaybeSerializeDebug + From<BlockNumber>` rendered as a capability record —
a default value (`Default`), a lawful copy operation (`Copy`), addition and a
lawful ordering test (`SimpleArithmetic`), lawful encode and decode (`Codec`),
and a conversion from the System module's `BlockNumber`
(`From<<Self as System>::BlockNumber>`). -/
structure BalanceBounds (S : SystemTypes) where
  Balance : Type
  defaultValue : Balance
  copy : Balance → Balance
  copy_eq : ∀ b, copy b = b
  add : Balance → Balance → Balance
  le : Balance → Balance → Bool
  le_refl : ∀ b, le b b = true
  encode : Balance → Bytes
  decode : Bytes → Option Balance
  decode_encode : ∀ b, decode (encode b) = some b
  ofBlockNumber : S.BlockNumber → Balance

/-- Concrete runtime binding with every associated type at `Nat`. -/
abbrev natSystemTypes : SystemTypes := ⟨Nat, Nat, Nat⟩

/-- Concrete instance of the `Balances` bound list at `Balance = Nat`,
demonstrating that the declared bounds are satisfiable. -/
abbrev natBalanceBounds : BalanceBounds natSystemTypes where
  Balance := Nat
  defaultValue := 0
  copy := fun b => b
  copy_eq := fun _ => rfl
  add := Nat.add
  le := fun a b => decide (a ≤ b)
  le_refl := fun _ => by simp
  encode := fun n => [n]
  decode := fun b => match b with | [n] => some n | _ => none
  decode_encode := fun _ => rfl
  ofBlockNumber := fun n => n

/-- Metadata fixture for the "Balances" module: dispatch index 5, the
"FreeBalance" storage map with declared default 0, and the "transfer" call at
call index 0 (the fixture of spec §8). -/
def balancesModuleFix : ModuleMetadata :=
  { name := "Balances"
    index := 5
    storageItems := [("FreeBalance", ⟨true, encodeFixed32 0⟩)]
    calls := [("transfer", 0)] }

/-- Metadata fixture for the "System" module: dispatch index 0, the
"AccountNonce" storage map with declared default 0, and the "set_code" call at
call index 2. -/
def systemModuleFix : ModuleMetadata :=
  { name := "System"
    index := 0
    storageItems := [("AccountNonce", ⟨true, encodeFixed32 0⟩)]
    calls := [("set_code", 2)] }

/-- Metadata fixture holding both modules. -/
def metadataFix : Metadata := ⟨[("System", systemModuleFix), ("Balances", balancesModuleFix)]⟩

/-- Metadata fixture with no modules at all. -/
def emptyMetadata : Metadata := ⟨[]⟩

/-- Client over the two-module fixture. -/
def clientFix : Client := ⟨metadataFix⟩

/-- Client over the empty metadata document. -/
def emptyClient : Client := ⟨emptyMetadata⟩

/-- Unvalidated builder over the two-module fixture. -/
def xtFix : XtBuilderU := ⟨metadataFix⟩

/-- Unvalidated builder over the empty metadata document. -/
def emptyXt : XtBuilderU := ⟨emptyMetadata⟩

/-- Resolved map accessor for "Balances"/"FreeBalance" over the fixture. -/
def fbMapFix : StorageMapAcc := ⟨strBytes "Balances" ++ strBytes "FreeBalance", 0⟩

/-- Resolved map accessor for "System"/"AccountNonce" over the fixture. -/
def anMapFix : StorageMapAcc := ⟨strBytes "System" ++ strBytes "AccountNonce", 0⟩


/-- C1: for every account id, the module read operations resolve their storage
map from metadata and delegate to the fetch-or-default facade:
`Client::free_balance` resolves module "Balances" storage item "FreeBalance"
and `Client::account_nonce` resolves module "System" storage item
"AccountNonce"; in each case the returned future is `fetch_or` applied to the
map key computed from the given account id and the map's declared default
value — so that against a transport with no entry for the derived key the
future resolves to exactly that default. -/
theorem read_ops_resolve_and_delegate_to_fetch_or
    (c : Client) (a : Nat) (mFB mAN : StorageMapAcc)
    (hFB : c.metadata.storageMap "Balances" "FreeBalance" = .ok mFB)
    (hAN : c.metadata.storageMap "System" "AccountNonce" = .ok mAN) :
    c.free_balance a = c.fetch_or (mFB.key a) mFB.defaultVal ∧
    c.account_nonce a = c.fetch_or (mAN.key a) mAN.defaultVal ∧
    (c.free_balance a).run (fun _ => none) = .ok mFB.defaultVal ∧
    (c.account_nonce a).run (fun _ => none) = .ok mAN.defaultVal := by
  unfold Client.free_balance Client.account_nonce
  rw [hFB, hAN]
  exact ⟨rfl, rfl, rfl, rfl⟩

/-- Witness for C1: over the two-module fixture, `free_balance` and
`account_nonce` of account 7 are the fetch-or-default futures for the derived
keys with default 0, and both resolve to 0 against an empty transport stub. -/
theorem read_ops_resolve_and_delegate_to_fetch_or_witness :
    Client.free_balance clientFix 7 = Client.fetch_or clientFix (fbMapFix.key 7) fbMapFix.defaultVal ∧
    Client.account_nonce clientFix 7 = Client.fetch_or clientFix (anMapFix.key 7) anMapFix.defaultVal ∧
    (Client.free_balance clientFix 7).run (fun _ => none) = .ok fbMapFix.defaultVal ∧
    (Client.account_nonce clientFix 7).run (fun _ => none) = .ok anMapFix.defaultVal :=
  read_ops_resolve_and_delegate_to_fetch_or clientFix 7 fbMapFix anMapFix rfl rfl

/-- C2: for every caller-supplied closure `f`, `XtBuilder::balances` resolves
the module named "Balances"; if resolution fails the `MetadataError` is
returned and no Valid builder is produced, and on success `f` is invoked with
a `ModuleCalls` helper bound to that module and the encoded call it returns is
carried by the new Valid-state builder. -/
theorem xt_balances_resolves_and_builds_valid
    (b : XtBuilderU) (f : ModuleCalls → Except MetadataError Bytes) :
    (∀ e, b.metadata.module "Balances" = .error e → b.balances f = .error e) ∧
    (∀ m c, b.metadata.module "Balances" = .ok m → f (ModuleCalls.new m) = .ok c →
      b.balances f = .ok (b.set_call c) ∧ (b.set_call c).call = c) := by
  constructor
  · intro e he
    unfold XtBuilderU.balances
    rw [he]
  · intro m c hm hc
    unfold XtBuilderU.balances
    rw [hm]
    simp [hc]
    rfl

/-- Witness for C2: over the fixture, building a transfer of amount 100 to
account 3 succeeds and the new Valid builder carries the encoded call
`[module index, call index, args]`; over the empty metadata the same build
returns `ModuleNotFound "Balances"`. -/
theorem xt_balances_resolves_and_builds_valid_witness :
    XtBuilderU.balances xtFix (fun mc => mc.transfer 3 100) =
      .ok (xtFix.set_call (5 :: 0 :: (encodeFixed32 3 ++ compactEncode 100))) ∧
    (xtFix.set_call (5 :: 0 :: (encodeFixed32 3 ++ compactEncode 100))).call =
      5 :: 0 :: (encodeFixed32 3 ++ compactEncode 100) ∧
    XtBuilderU.balances emptyXt (fun mc => mc.transfer 3 100) =
      .error (.moduleNotFound "Balances") :=
  ⟨((xt_balances_resolves_and_builds_valid xtFix (fun mc => mc.transfer 3 100)).2
      balancesModuleFix _ rfl rfl).1,
   ((xt_balances_resolves_and_builds_valid xtFix (fun mc => mc.transfer 3 100)).2
      balancesModuleFix _ rfl rfl).2,
   (xt_balances_resolves_and_builds_valid emptyXt (fun mc => mc.transfer 3 100)).1
      (.moduleNotFound "Balances") rfl⟩

/-- C9: in `XtBuilder::balances`, if the lookup of module "Balances" fails,
the caller-supplied closure is never invoked: the result does not depend on
the closure at all (so no call encoding is attempted and no effect of the
closure is observable), and it is exactly the lookup error. -/
theorem xt_balances_closure_not_invoked_on_error
    (b : XtBuilderU) (f g : ModuleCalls → Except MetadataError Bytes)
    (e : MetadataError) (h : b.metadata.module "Balances" = .error e) :
    b.balances f = b.balances g ∧ b.balances f = .error e := by
  unfold XtBuilderU.balances
  rw [h]
  exact ⟨rfl, rfl⟩

/-- Witness for C9: over the empty metadata document, two closures with
visibly different outcomes produce the same result, namely
`ModuleNotFound "Balances"`. -/
theorem xt_balances_closure_not_invoked_on_error_witness :
    XtBuilderU.balances emptyXt (fun mc => mc.transfer 1 1) =
      XtBuilderU.balances emptyXt (fun _ => .error (.callNotFound "zzz")) ∧
    XtBuilderU.balances emptyXt (fun mc => mc.transfer 1 1) =
      .error (.moduleNotFound "Balances") :=
  xt_balances_closure_not_invoked_on_error emptyXt
    (fun mc => mc.transfer 1 1) (fun _ => .error (.callNotFound "zzz"))
    (.moduleNotFound "Balances") rfl

/-- C10: the read operations `free_balance` and `account_nonce` take the
client by shared reference and leave every component of the client (including
the loaded metadata document) unchanged: in the state-threading embedding the
client handed back is the client passed in, componentwise, and the produced
future is the pure read result. -/
theorem read_ops_leave_client_unchanged (c : Client) (a : Nat) :
    (c.free_balanceS a).2 = c ∧
    (c.account_nonceS a).2 = c ∧
    (c.free_balanceS a).2.metadata = c.metadata ∧
    (c.account_nonceS a).2.metadata = c.metadata ∧
    (c.free_balanceS a).1 = c.free_balance a ∧
    (c.account_nonceS a).1 = c.account_nonce a :=
  ⟨rfl, rfl, rfl, rfl, rfl, rfl⟩

/-- Length of the fixed-width little-endian encoding is its declared width. -/
theorem toLE_length (w : Nat) : ∀ n, (toLE w n).length = w := by
  induction w with
  | zero => intro n; rfl
  | succ w ih => intro n; simp [toLE, ih]

/-- C4: for every destination and amount, `ModuleCalls::transfer` encodes the
amount argument of the "transfer" call using the variable-length compact
encoding — the emitted call is `module index :: call index :: fixed-width
destination ++ compact amount`, and the compact encoding occupies one byte
below `2^6`, two bytes below `2^14` and four bytes below `2^30`, so small
values occupy fewer bytes and the width is not fixed. -/
theorem transfer_encodes_amount_compactly
    (mc : ModuleCalls) (dest amt ci : Nat)
    (h : lookupName mc.module.calls "transfer" = some ci) :
    mc.transfer dest amt =
      .ok (mc.module.index :: ci :: (encodeFixed32 dest ++ compactEncode amt)) ∧
    (∀ a, a < 64 → (compactEncode a).length = 1) ∧
    (∀ a, 64 ≤ a → a < 16384 → (compactEncode a).length = 2) ∧
    (∀ a, 16384 ≤ a → a < 1073741824 → (compactEncode a).length = 4) := by
  refine ⟨?_, ?_, ?_, ?_⟩
  · unfold ModuleCalls.transfer ModuleMetadata.call
    rw [h]
  · intro a ha
    simp [compactEncode, ha]
  · intro a h1 h2
    have hn : ¬ a < 64 := by omega
    simp [compactEncode, hn, h2, toLE_length]
  · intro a h1 h2
    have hn : ¬ a < 64 := by omega
    have hn2 : ¬ a < 16384 := by omega
    simp [compactEncode, hn, hn2, h2, toLE_length]

/-- Witness for C4: over the fixture module, a transfer of amount 5 to
account 1 emits the compact amount, and the compact lengths at the class
boundaries 63/64 and 16383/16384 differ. -/
theorem transfer_encodes_amount_compactly_witness :
    ModuleCalls.transfer (ModuleCalls.new balancesModuleFix) 1 5 =
      .ok (balancesModuleFix.index :: 0 :: (encodeFixed32 1 ++ compactEncode 5)) ∧
    (compactEncode 63).length = 1 ∧
    (compactEncode 64).length = 2 ∧
    (compactEncode 16383).length = 2 ∧
    (compactEncode 16384).length = 4 :=
  ⟨(transfer_encodes_amount_compactly (ModuleCalls.new balancesModuleFix) 1 5 0 rfl).1,
   (transfer_encodes_amount_compactly (ModuleCalls.new balancesModuleFix) 1 5 0 rfl).2.1
      63 (by decide),
   (transfer_encodes_amount_compactly (ModuleCalls.new balancesModuleFix) 1 5 0 rfl).2.2.1
      64 (by decide) (by decide),
   (transfer_encodes_amount_compactly (ModuleCalls.new balancesModuleFix) 1 5 0 rfl).2.2.1
      16383 (by decide) (by decide),
   (transfer_encodes_amount_compactly (ModuleCalls.new balancesModuleFix) 1 5 0 rfl).2.2.2
      16384 (by decide) (by decide)⟩

/-- Counterexample to C5: with an empty metadata document, `free_balance`
returns its `MetadataError` inside the returned future (`future::err`,
balances.rs:76) — the error is deferred into the future machinery, not
surfaced to the caller as a failed synchronous `Result` as the claim states
for all four operations. -/
theorem free_balance_error_is_deferred_into_future :
    Client.free_balance emptyClient 0 =
      FutureSpec.err (.metadata (.moduleNotFound "Balances")) := rfl

/-- C5 (amended): on every metadata resolution failure the operation
short-circuits before any network interaction — `free_balance`,
`account_nonce` and `set_code` return an already-failed future carrying the
`MetadataError` (never a `fetchOr`/`submit` request), while `balances` alone
surfaces the error synchronously as a failed `Result`. -/
theorem metadata_errors_short_circuit_before_network :
    (∀ (c : Client) (a : Nat) (e : MetadataError),
        c.metadata.storageMap "Balances" "FreeBalance" = .error e →
        c.free_balance a = .err (.metadata e)) ∧
    (∀ (c : Client) (a : Nat) (e : MetadataError),
        c.metadata.storageMap "System" "AccountNonce" = .error e →
        c.account_nonce a = .err (.metadata e)) ∧
    (∀ (b : XtBuilderU) (f : ModuleCalls → Except MetadataError Bytes)
        (e : MetadataError),
        b.metadata.module "Balances" = .error e →
        b.balances f = Except.error e) ∧
    (∀ (b : XtBuilderU) (code : Bytes) (e : MetadataError),
        setCodeCall b code = .error e →
        b.set_code code = .err (.metadata e)) := by
  refine ⟨?_, ?_, ?_, ?_⟩
  · intro c a e h
    unfold Client.free_balance
    rw [h]
  · intro c a e h
    unfold Client.account_nonce
    rw [h]
  · intro b f e h
    unfold XtBuilderU.balances
    rw [h]
  · intro b code e h
    unfold XtBuilderU.set_code
    rw [h]

/-- Witness for C5 (amended): over the empty metadata document all four
operations fail with the module-not-found error through their respective
channels, with no network request recorded. -/
theorem metadata_errors_short_circuit_before_network_witness :
    Client.free_balance emptyClient 1 =
      FutureSpec.err (.metadata (.moduleNotFound "Balances")) ∧
    Client.account_nonce emptyClient 2 =
      FutureSpec.err (.metadata (.moduleNotFound "System")) ∧
    XtBuilderU.balances emptyXt (fun mc => mc.transfer 1 2) =
      Except.error (.moduleNotFound "Balances") ∧
    XtBuilderU.set_code emptyXt [9] =
      XtResult.err (.metadata (.moduleNotFound "System")) :=
  ⟨metadata_errors_short_circuit_before_network.1 emptyClient 1
      (.moduleNotFound "Balances") rfl,
   metadata_errors_short_circuit_before_network.2.1 emptyClient 2
      (.moduleNotFound "System") rfl,
   metadata_errors_short_circuit_before_network.2.2.1 emptyXt
      (fun mc => mc.transfer 1 2) (.moduleNotFound "Balances") rfl,
   metadata_errors_short_circuit_before_network.2.2.2 emptyXt [9]
      (.moduleNotFound "System") rfl⟩

/-- Counterexample to C3: `set_code` reaches the submission machinery from a
builder of the default (Unvalidated) type, which carries no accumulated call —
the call is constructed inside the method and passed to `submit` as an
argument (system.rs:149, `impl ... for XtBuilder<T, P>`, and system.rs:168,
`self.submit(call)`).  Here an Unvalidated builder over the fixture submits
an extrinsic, so submission is not only reachable from a Valid-typed
builder. -/
theorem set_code_submits_from_unvalidated_builder :
    XtBuilderU.set_code xtFix [1, 2, 3] = XtResult.submit [0, 2, 12, 1, 2, 3] := rfl

/-- C3 (amended): the staged submission operation is only defined on the
Valid builder type, whose value always carries exactly the call installed by
`set_call` — every Valid builder is the image of `set_call` and its
submission hands over precisely the carried call; however the legacy
`set_code` path additionally submits from the default-state builder, passing
the call as an argument. -/
theorem staged_submit_only_from_valid_builder (v : XtBuilderV) :
    v.submit = XtResult.submit v.call ∧
    ∃ u c, v = XtBuilderU.set_call u c ∧ (XtBuilderU.set_call u c).call = c := by
  refine ⟨rfl, ⟨v.metadata⟩, v.call, ?_, rfl⟩
  cases v
  rfl

/-- Counterexample to C6: `set_code` both constructs the encoded call and
submits it within one method (system.rs:157-169): a single invocation on the
fixture builder goes from a call name to a dispatched submission, with no
intermediate call-carrying builder handed back to the caller. -/
theorem set_code_constructs_and_submits_in_one_method :
    XtBuilderU.set_code xtFix [7] = XtResult.submit [0, 2, 4, 7] := rfl

/-- C6 (amended): the transfer write path follows the staged design — the
`balances` step is a pure synchronous construction that can only fail with a
`MetadataError` and yields a Valid builder carrying the encoded call, and
submission is a separate later step on that builder; the legacy `set_code`
path, by contrast, constructs and submits in one method. -/
theorem transfer_write_path_is_staged
    (b : XtBuilderU) (dest amt ci : Nat) (m : ModuleMetadata)
    (hm : b.metadata.module "Balances" = .ok m)
    (hc : lookupName m.calls "transfer" = some ci) :
    b.balances (fun mc => mc.transfer dest amt) =
      .ok (b.set_call (m.index :: ci :: (encodeFixed32 dest ++ compactEncode amt))) ∧
    (b.set_call (m.index :: ci :: (encodeFixed32 dest ++ compactEncode amt))).submit =
      XtResult.submit (m.index :: ci :: (encodeFixed32 dest ++ compactEncode amt)) := by
  have ht : (ModuleCalls.new m).transfer dest amt =
      .ok (m.index :: ci :: (encodeFixed32 dest ++ compactEncode amt)) := by
    unfold ModuleCalls.transfer ModuleMetadata.call
    dsimp only [ModuleCalls.new]
    rw [hc]
  constructor
  · unfold XtBuilderU.balances
    rw [hm]
    simp [ht]
  · rfl

/-- Witness for C6 (amended): over the fixture, building a transfer of
amount 2 to account 4 yields the Valid builder carrying the encoded call, and
its separate submission hands over exactly that call. -/
theorem transfer_write_path_is_staged_witness :
    XtBuilderU.balances xtFix (fun mc => mc.transfer 4 2) =
      .ok (xtFix.set_call (balancesModuleFix.index :: 0 ::
        (encodeFixed32 4 ++ compactEncode 2))) ∧
    (xtFix.set_call (balancesModuleFix.index :: 0 ::
        (encodeFixed32 4 ++ compactEncode 2))).submit =
      XtResult.submit (balancesModuleFix.index :: 0 ::
        (encodeFixed32 4 ++ compactEncode 2)) :=
  transfer_write_path_is_staged xtFix 4 2 0 balancesModuleFix rfl rfl

/-- Counterexample to C7: `balances` takes the builder by shared reference
(`&self`, balances.rs:104), so after a successful module call the caller still
holds the original builder unchanged next to the new Valid builder — the
original is not consumed and remains usable, against the claim that it "is no
longer usable". -/
theorem balances_original_builder_remains_usable :
    XtBuilderU.balancesS xtFix (fun mc => mc.transfer 9 5) =
      (Except.ok (xtFix.set_call [5, 0, 9, 0, 0, 0, 20]), xtFix) := rfl

/-- C7 (amended): a successful `balances` call hands the caller a new builder
value of the Valid type carrying the encoded call, while the original builder
is left unchanged (and remains usable, being borrowed rather than consumed);
the transition produces the Valid type only — `set_call` installs the call it
is given and nothing rewinds it. -/
theorem balances_yields_new_valid_builder
    (b : XtBuilderU) (f : ModuleCalls → Except MetadataError Bytes) :
    (b.balancesS f).2 = b ∧
    (∀ c, (b.set_call c).call = c) ∧
    (∀ m c, b.metadata.module "Balances" = .ok m → f (ModuleCalls.new m) = .ok c →
      (b.balancesS f).1 = .ok (b.set_call c)) := by
  refine ⟨rfl, fun _ => rfl, fun m c hm hc => ?_⟩
  show b.balances f = .ok (b.set_call c)
  unfold XtBuilderU.balances
  rw [hm]
  simp [hc]

/-- Witness for C7 (amended): over the fixture, building a transfer of
amount 6 to account 2 leaves the original builder in the caller's hands and
produces the new Valid builder carrying the encoded call. -/
theorem balances_yields_new_valid_builder_witness :
    (XtBuilderU.balancesS xtFix (fun mc => mc.transfer 2 6)).2 = xtFix ∧
    (XtBuilderU.balancesS xtFix (fun mc => mc.transfer 2 6)).1 =
      .ok (xtFix.set_call (balancesModuleFix.index :: 0 ::
        (encodeFixed32 2 ++ compactEncode 6))) :=
  ⟨(balances_yields_new_valid_builder xtFix (fun mc => mc.transfer 2 6)).1,
   (balances_yields_new_valid_builder xtFix (fun mc => mc.transfer 2 6)).2.2
      balancesModuleFix (balancesModuleFix.index :: 0 ::
        (encodeFixed32 2 ++ compactEncode 6)) rfl rfl⟩

/-- C8: the `Balance` associated type of the `Balances` trait is required by
its declared bounds (balances.rs:23-30) to be default-constructible
(`Default`), copyable (`Copy`), ordered-arithmetic-capable
(`SimpleArithmetic`), encodable and decodable (`Codec`), and convertible from
the System module's `BlockNumber` (`From<<Self as System>::BlockNumber>`):
every instance of the bound bundle yields these capabilities, and the bundle
is inhabited at the concrete `Nat` runtime. -/
theorem balance_bound_bundle_capabilities :
    (∀ (S : SystemTypes) (B : BalanceBounds S) (bn : S.BlockNumber),
      B.decode (B.encode (B.ofBlockNumber bn)) = some (B.ofBlockNumber bn) ∧
      B.copy (B.ofBlockNumber bn) = B.ofBlockNumber bn ∧
      B.le B.defaultValue B.defaultValue = true ∧
      B.decode (B.encode B.defaultValue) = some B.defaultValue) ∧
    natBalanceBounds.defaultValue = (0 : Nat) ∧
    natBalanceBounds.ofBlockNumber (7 : Nat) = (7 : Nat) ∧
    natBalanceBounds.le (3 : Nat) (5 : Nat) = true ∧
    natBalanceBounds.add (2 : Nat) (2 : Nat) = (4 : Nat) ∧
    natBalanceBounds.decode (natBalanceBounds.encode (1000 : Nat)) = some (1000 : Nat) :=
  ⟨fun _ B bn =>
    ⟨B.decode_encode (B.ofBlockNumber bn), B.copy_eq (B.ofBlockNumber bn),
     B.le_refl B.defaultValue, B.decode_encode B.defaultValue⟩,
   rfl, rfl, rfl, rfl, rfl⟩
